import Mathlib

/-!
Verification development for the StepViz execution-trace capture and
object-graph visualizer.

The Python tracer embedded in `src/services/PythonService.js` (the
`PYTHON_SETUP_CODE`, `VISUALIZER_STATE_CODE`, `OUTPUT_AND_TRACING_CODE` and
`RUN_WITH_TRACE_CODE` strings) and the D3 renderer in
`src/components/PythonTutorViz.jsx` are shallowly embedded below as pure Lean
functions.  Machine-level aspects that the claims do not touch (floating point
numbers, the aliasing of the single mutable heap dictionary across snapshots,
and pixel coordinates in the renderer) are noted in comments where they are
abstracted.
-/

/-- A single quote character, used when building the Python-style strings that
the tracer produces. -/
def sglQuote : String := String.singleton (Char.ofNat 39)

/-- JavaScript `String.prototype.includes` / Python `in` on strings:
`pat` occurs contiguously inside `hay`.  Implemented on the underlying
character lists. -/
def listContainsSeq : List Char → List Char → Bool
  | pat, [] => pat.isEmpty
  | pat, c :: rest => pat.isPrefixOf (c :: rest) || listContainsSeq pat rest

/-- JavaScript `hay.includes(pat)`. -/
def jsIncludes (hay pat : String) : Bool :=
  listContainsSeq pat.data hay.data

/-- Python `s.startswith(pre)` / the prefix tests of the tracer, implemented
on the underlying character lists. -/
def strStartsWith (s pre : String) : Bool :=
  pre.data.isPrefixOf s.data

-- ===================================================================
-- Nat.repr injectivity (used for distinctness of heap ids "idN")
-- ===================================================================

/-- Value of the decimal digits that `Nat.toDigitsCore 10` pushes in front of
an accumulator `acc`: the digits of `n` appended (most significant first)
after the digits already accounted for by `acc`. -/
def decimalPush (acc n : Nat) : Nat :=
  if n < 10 then acc * 10 + n
  else decimalPush acc (n / 10) * 10 + n % 10
  termination_by n
  decreasing_by exact Nat.div_lt_self (by omega) (by omega)

theorem decimalPush_zero (n : Nat) : decimalPush 0 n = n := by
  induction n using Nat.strong_induction_on with
  | _ n ih =>
    rw [decimalPush]
    by_cases h : n < 10
    · simp [h]
    · have hlt : n / 10 < n := Nat.div_lt_self (by omega) (by omega)
      rw [if_neg h, ih _ hlt]
      omega

/-- Reading a digit character back as a number. -/
def digitVal (c : Char) : Nat := c.toNat - 48

theorem digitVal_digitChar (d : Nat) (h : d < 10) :
    digitVal (Nat.digitChar d) = d := by
  interval_cases d <;> decide

/-- Left fold interpreting a list of decimal digit characters. -/
def decimalParse (acc : Nat) (l : List Char) : Nat :=
  l.foldl (fun a c => a * 10 + digitVal c) acc

theorem decimalParse_cons (acc : Nat) (c : Char) (l : List Char) :
    decimalParse acc (c :: l) = decimalParse (acc * 10 + digitVal c) l := rfl

theorem decimalParse_toDigitsCore (fuel : Nat) :
    ∀ n acc ds, n < fuel →
      decimalParse acc (Nat.toDigitsCore 10 fuel n ds) =
      decimalParse (decimalPush acc n) ds := by
  induction fuel with
  | zero => intro n acc ds h; omega
  | succ fuel ih =>
    intro n acc ds h
    rw [Nat.toDigitsCore]
    have hmod : n % 10 < 10 := Nat.mod_lt _ (by omega)
    by_cases h0 : n / 10 = 0
    · have hn : n < 10 := by omega
      rw [if_pos h0, decimalParse_cons, digitVal_digitChar _ hmod,
        decimalPush, if_pos hn, Nat.mod_eq_of_lt hn]
    · have hdiv : n / 10 < n := Nat.div_lt_self (by omega) (by omega)
      have hrec : n / 10 < fuel := by omega
      rw [if_neg h0, ih _ _ _ hrec, decimalParse_cons,
        digitVal_digitChar _ hmod]
      conv_rhs => rw [decimalPush]
      rw [if_neg (by omega : ¬ n < 10)]

theorem decimalParse_repr (n : Nat) : decimalParse 0 (Nat.repr n).data = n := by
  show decimalParse 0 ((Nat.toDigits 10 n).asString).data = n
  have : ((Nat.toDigits 10 n).asString).data = Nat.toDigits 10 n := rfl
  rw [this, Nat.toDigits, decimalParse_toDigitsCore (n + 1) n 0 [] (by omega)]
  simp [decimalParse, decimalPush_zero]

theorem Nat.repr_inj {m n : Nat} (h : Nat.repr m = Nat.repr n) : m = n := by
  have := congrArg (fun s => decimalParse 0 s.data) h
  simpa [decimalParse_repr] using this

-- ===================================================================
-- Data model: value descriptors, heap entries, frames, snapshots
-- ===================================================================

/-- A value as shown in a frame: `{"type": "primitive", "value": v}` or
`{"type": "reference", "id": heapId}`. -/
inductive ValueDescriptor where
  | primitive (value : String)
  | reference (id : String)
deriving DecidableEq, Repr

/-- One heap entry, tagged by its `type` field (see
`VisualizerState.process_value`).  The JSON key `annotation` of a Counter
entry is modelled by the field ` annot`; `_object_id` by `objId`. -/
inductive HeapEntry where
  | list (objectType : String) (elements : List ValueDescriptor)
  | dict (value : List (String × String))
  | counter (value : List (String × String)) ( annot : String) (objId : Nat)
  | func (name : String) (value : String)
deriving DecidableEq, Repr

/-- The captured `frame` part of a snapshot.  The field `vars` models the
JSON key `variables` (that spelling is a reserved word in Lean), an ordered
name-to-descriptor mapping. -/
structure Frame where
  name : String
  vars : List (String × ValueDescriptor)
deriving DecidableEq, Repr

/-- One execution snapshot (an element of the Python list
`execution_steps`).  The Python code stores a reference to the single shared
heap dict in every snapshot; the model snapshots its value at capture time
(none of the claims below observes the aliasing). -/
structure Step where
  frame : Frame
  heap : List (String × HeapEntry)
  output : String
  currentLine : Nat
deriving DecidableEq, Repr

-- ===================================================================
-- custom_import (PYTHON_SETUP_CODE) and a small program model
-- ===================================================================

/-- The deny-list inside `custom_import`. -/
def unsupported_modules : List String :=
  ["numpy", "np", "pandas", "pd", "matplotlib", "plt", "scipy", "sk",
   "sklearn", "requests"]

/-- The standard-library allow-list that the `requests` rejection message
enumerates to the caller (source line 99); used only to state the claims
about "modules outside the allow-list". -/
def allow_listed_modules : List String :=
  ["**future**", "abc", "array", "bisect", "calendar", "cmath", "collections",
   "copy", "datetime", "decimal", "doctest", "fractions", "functools",
   "hashlib", "heapq", "io", "itertools", "json", "locale", "math",
   "operator", "pickle", "pprint", "random", "re", "string", "types",
   "typing", "unittest"]

/-- Message raised for `import requests`. -/
def requestsRejectionMessage : String :=
  "requests not found or not supported - Only these modules can be imported: **future**, abc, array, bisect, calendar, cmath, collections, copy, datetime, decimal, doctest, fractions, functools, hashlib, heapq, io, itertools, json, locale, math, operator, pickle, pprint, random, re, string, types, typing, unittest"

/-- Message raised for the other deny-listed modules. -/
def moduleRejectionMessage (name : String) : String :=
  "Module " ++ sglQuote ++ name ++ sglQuote ++
  " is not supported in this environment. Please use standard Python libraries only."

/-- Python `name.lower()` (ASCII case folding suffices for the module names
involved), implemented by mapping over the character list. -/
def pyLower (s : String) : String := ⟨s.data.map Char.toLower⟩

/-- The import hook installed over `builtins.__import__`.  `.error msg` models
raising `ImportError(msg)`; `.ok ()` models delegation to `real_import`. -/
def custom_import (name : String) : Except String Unit :=
  if pyLower name ∈ unsupported_modules then
    if pyLower name = "requests" then .error requestsRejectionMessage
    else .error (moduleRejectionMessage name)
  else .ok ()

/-- A user program line, as far as the import/output claims are concerned:
a print statement, an import statement, or any other statement that neither
prints nor imports. -/
inductive Stmt where
  | print (s : String)
  | importStmt (m : String)
  | other
deriving DecidableEq, Repr

/-- Sequential execution of the user program by `exec` inside
`run_with_trace`: output accumulates line-buffered prints; the first
`ImportError` aborts execution of everything after it (it propagates out of
`exec` and is caught by the `except ImportError` handler, which records it as
kind "Error" per source line 362). -/
def execStmts : List Stmt → String → String × Option (String × String)
  | [], out => (out, none)
  | .print s :: rest, out => execStmts rest (out ++ s ++ "\n")
  | .other :: rest, out => execStmts rest out
  | .importStmt m :: rest, out =>
    match custom_import m with
    | .ok _ => execStmts rest out
    | .error msg => (out, some ("Error", msg))

-- ===================================================================
-- Python runtime values (as far as the materializer inspects them)
-- ===================================================================

/-- A live Python value as dispatched on by `VisualizerState.process_value`.
`objId` on compound values models CPython `id(val)` — the object identity of
the live instance — so that "two separate structurally equal instances" and
"the same live object observed twice" are distinguishable inputs.  Floats are
omitted (floating point is outside this embedding); `pyObj` is any other
object together with its `str()` rendering. -/
inductive PyVal where
  | int (n : Int)
  | bool (b : Bool)
  | none
  | str (s : String)
  | tuple (objId : Nat) (elems : List PyVal)
  | list (objId : Nat) (elems : List PyVal)
  | dict (objId : Nat) (entries : List (PyVal × PyVal))
  | counter (objId : Nat) (entries : List (PyVal × PyVal))
  | func (objId : Nat) (name : String) (params : Option (List String))
  | module (name : String)
  | iterator
  | pattern (pat : String)
  | pyObj (s : String)

mutual

/-- Python `repr` of a value (best effort; only the primitive cases are
observed by any claim). -/
def pyRepr : PyVal → String
  | .int n => toString n
  | .bool b => if b then "True" else "False"
  | .none => "None"
  | .str s => sglQuote ++ s ++ sglQuote
  | .tuple _ es =>
    if es.length = 1 then "(" ++ String.intercalate ", " (pyReprList es) ++ ",)"
    else "(" ++ String.intercalate ", " (pyReprList es) ++ ")"
  | .list _ es => "[" ++ String.intercalate ", " (pyReprList es) ++ "]"
  | .dict _ kvs => "\x7b" ++ String.intercalate ", " (pyReprPairs kvs) ++ "\x7d"
  | .counter _ kvs =>
    "Counter(\x7b" ++ String.intercalate ", " (pyReprPairs kvs) ++ "\x7d)"
  | .func _ name _ => "<function " ++ name ++ ">"
  | .module name => "<module " ++ sglQuote ++ name ++ sglQuote ++ ">"
  | .iterator => "<iterator>"
  | .pattern p => "re.compile(" ++ sglQuote ++ p ++ sglQuote ++ ")"
  | .pyObj s => s

def pyReprList : List PyVal → List String
  | [] => []
  | v :: vs => pyRepr v :: pyReprList vs

def pyReprPairs : List (PyVal × PyVal) → List String
  | [] => []
  | (k, v) :: kvs => (pyRepr k ++ ": " ++ pyRepr v) :: pyReprPairs kvs

end

/-- Python `str` of a value: identity on strings, `repr` otherwise. -/
def pyStr : PyVal → String
  | .str s => s
  | v => pyRepr v

/-- The string stored for one dict value by `process_value`:
`process_value(v)["value"]` for int/float/bool/str values, `str(v)` for
everything else (source lines 169-172); for the primitive cases
`process_value(v)["value"]` does not allocate and equals the cases below. -/
def dictValueStr : PyVal → String
  | .int n => toString n
  | .bool b => if b then "True" else "False"
  | .str s => s
  | v => pyStr v

-- ===================================================================
-- VisualizerState (VISUALIZER_STATE_CODE)
-- ===================================================================

/-- The mutable state of the Python `VisualizerState` instance `visualizer`:
the shared heap dict, the monotone id counter and the (unused after
`__init__`) `output` field. -/
structure VisualizerState where
  heap : List (String × HeapEntry)
  next_heap_id : Nat
  output : String
deriving DecidableEq, Repr

/-- `VisualizerState.__init__`. -/
def VisualizerState.init : VisualizerState := ⟨[], 1, ""⟩

/-- `get_heap_id`: returns `f"id{id}"` and increments the counter. -/
def VisualizerState.get_heap_id (s : VisualizerState) : String × VisualizerState :=
  ("id" ++ Nat.repr s.next_heap_id, { s with next_heap_id := s.next_heap_id + 1 })

/-- Assignment `self.heap[k] = e` on the ordered dict model. -/
def heapSet (h : List (String × HeapEntry)) (k : String) (e : HeapEntry) :
    List (String × HeapEntry) :=
  if h.any (fun p => p.1 = k) then h.map (fun p => if p.1 = k then (k, e) else p)
  else h ++ [(k, e)]

/-- Lookup `self.heap.get(k)`. -/
def heapGet (h : List (String × HeapEntry)) (k : String) : Option HeapEntry :=
  (h.find? (fun p => p.1 = k)).map Prod.snd

/-- `_get_variable_name`: scan the global `execution_steps` for a variable
whose reference points at a heap entry whose `_object_id` equals `id(obj)`. -/
def VisualizerState._get_variable_name (s : VisualizerState)
    (execution_steps : List Step) (objId : Nat) : Option String :=
  execution_steps.findSome? fun st =>
    st.frame.vars.findSome? fun nv =>
      match nv.2 with
      | .reference i =>
        match heapGet s.heap i with
        | some (.counter _ _ oid) => if oid = objId then some nv.1 else Option.none
        | _ => Option.none
      | _ => Option.none

/-- The Counter `label` of the Counter branch of `process_value`:
`f"Counter for {var_name}" if var_name else "Counter object"`.  Like
`_get_variable_name`, this is dead code in the source: the branch that
computes it is unreachable (see `counter_branch_entry`). -/
def counterLabel (execution_steps : List Step) (s : VisualizerState)
    (objId : Nat) : String :=
  match s._get_variable_name execution_steps objId with
  | some n => "Counter for " ++ n
  | _ => "Counter object"

/-- The heap entry that the Counter special case of `process_value` (source
lines 189-207) *would* build: a type-`Counter` entry with stringified
counts, a descriptive annotation and the object id.  This branch is
unreachable in the program: `collections.Counter` is a `dict` subclass, so
every value that would satisfy its `val.__class__.__name__ == 'Counter'`
test is already consumed by the `isinstance(val, dict)` branch at line 165,
which precedes it. -/
def counter_branch_entry (execution_steps : List Step) (s1 : VisualizerState)
    (objId : Nat) (entries : List (PyVal × PyVal)) : HeapEntry :=
  .counter (entries.map fun kv => (pyStr kv.1, pyStr kv.2))
    (counterLabel execution_steps s1 objId) objId

mutual

/-- `VisualizerState.process_value`.  `execution_steps` models the module
global of that name, read (only) by `_get_variable_name` in the unreachable
Counter branch.  Branches follow the source order, which matters twice for
CPython subclassing: `bool` subclasses `int`, so booleans are stringified by
the numeric branch (the same `"True"`/`"False"` strings produced here), and
`collections.Counter` subclasses `dict`, so Counter values are consumed by
the dict branch at line 165 and never reach the Counter special case at
line 190. -/
def VisualizerState.process_value (execution_steps : List Step)
    (s : VisualizerState) : PyVal → ValueDescriptor × VisualizerState
  | .module name =>
    (.primitive ("<module " ++ sglQuote ++ name ++ sglQuote ++ ">"), s)
  | .int n => (.primitive (toString n), s)
  | .bool b => (.primitive (if b then "True" else "False"), s)
  | .none => (.primitive "None", s)
  | .str v => (.primitive v, s)
  | .tuple _ elems =>
    let (heap_id, s1) := s.get_heap_id
    let (ds, s2) := VisualizerState.process_values execution_steps s1 elems
    (.reference heap_id,
     { s2 with heap := heapSet s2.heap heap_id (.list "tuple" ds) })
  | .list _ elems =>
    let (heap_id, s1) := s.get_heap_id
    let (ds, s2) := VisualizerState.process_values execution_steps s1 elems
    (.reference heap_id,
     { s2 with heap := heapSet s2.heap heap_id (.list "list" ds) })
  | .dict _ entries =>
    let (heap_id, s1) := s.get_heap_id
    let entry : HeapEntry := .dict (entries.map fun kv => (pyStr kv.1, dictValueStr kv.2))
    (.reference heap_id, { s1 with heap := heapSet s1.heap heap_id entry })
  | .func _ name params =>
    let (heap_id, s1) := s.get_heap_id
    let signature :=
      match params with
      | some ps => name ++ "(" ++ String.intercalate ", " ps ++ ")"
      | _ => name
    (.reference heap_id,
     { s1 with heap := heapSet s1.heap heap_id (.func name signature) })
  | .counter _ entries =>
    -- `collections.Counter` subclasses `dict`, so `isinstance(val, dict)`
    -- (line 165) matches a live Counter before the Counter check at line
    -- 190: Counters are materialized by the dict branch, exactly like
    -- `.dict` values, and the Counter special case (`counter_branch_entry`)
    -- is unreachable.
    let (heap_id, s1) := s.get_heap_id
    let entry : HeapEntry :=
      .dict (entries.map fun kv => (pyStr kv.1, dictValueStr kv.2))
    (.reference heap_id, { s1 with heap := heapSet s1.heap heap_id entry })
  | .iterator => (.primitive "iterator", s)
  | .pattern p => (.primitive ("regex: " ++ p), s)
  | .pyObj v => (.primitive v, s)

/-- The list comprehension `[self.process_value(x) for x in val]`,
left to right, threading the mutable state. -/
def VisualizerState.process_values (execution_steps : List Step)
    (s : VisualizerState) : List PyVal → List ValueDescriptor × VisualizerState
  | [] => ([], s)
  | v :: vs =>
    let (d, s1) := VisualizerState.process_value execution_steps s v
    let (ds, s2) := VisualizerState.process_values execution_steps s1 vs
    (d :: ds, s2)

end

-- ===================================================================
-- capture_frame and trace_execution (OUTPUT_AND_TRACING_CODE)
-- ===================================================================

/-- The parts of a CPython frame object that the tracer inspects.
`f_globals_name` is `frame.f_globals.get('__name__', '')`. -/
structure PyFrame where
  f_code_co_name : String
  f_lineno : Nat
  f_globals_name : String
  f_globals : List (String × PyVal)
  f_locals : List (String × PyVal)

/-- The `continue` filter for global-frame variables (source lines 256-259). -/
def globalSkip (name : String) : Bool :=
  strStartsWith name "__" ||
  ["sys", "json", "builtins", "custom_import", "visualization",
   "visualizer"].contains name ||
  strStartsWith name "_"

/-- The inclusion test for global-frame variables (source line 262). -/
def globalInclude (name : String) : Bool :=
  ["Counter", "winner", "input"].contains name ||
  !(strStartsWith name "get_" || strStartsWith name "set_" ||
    strStartsWith name "run_" || strStartsWith name "trace_")

/-- Iteration over `frame.f_globals.items()` in the `<module>` branch of
`capture_frame`, threading the materializer state. -/
def captureGlobals (execution_steps : List Step) (s : VisualizerState) :
    List (String × PyVal) → List (String × ValueDescriptor) × VisualizerState
  | [] => ([], s)
  | (name, val) :: rest =>
    if !globalSkip name && globalInclude name then
      let (d, s1) := VisualizerState.process_value execution_steps s val
      let (ds, s2) := captureGlobals execution_steps s1 rest
      ((name, d) :: ds, s2)
    else captureGlobals execution_steps s rest

/-- Iteration over `frame.f_locals.items()` in the non-module branch of
`capture_frame`. -/
def captureLocals (execution_steps : List Step) (s : VisualizerState) :
    List (String × PyVal) → List (String × ValueDescriptor) × VisualizerState
  | [] => ([], s)
  | (name, val) :: rest =>
    if strStartsWith name "__" || ["self", "cls"].contains name then
      captureLocals execution_steps s rest
    else
      let (d, s1) := VisualizerState.process_value execution_steps s val
      let (ds, s2) := captureLocals execution_steps s1 rest
      ((name, d) :: ds, s2)

/-- `VisualizerState.capture_frame`.  `captured_output` models
`get_output()` (the `OutputCapturer` buffer).  The Python code stores the
shared heap dict by reference into `frame_info` before processing the
variables; by aliasing the stored heap reflects all mutations made while
processing them, so the model stores the state heap after the variables have
been processed. -/
def VisualizerState.capture_frame (execution_steps : List Step)
    (s : VisualizerState) (frame : PyFrame) (captured_output : String) :
    Step × VisualizerState :=
  let name :=
    if frame.f_code_co_name ≠ "<module>" then frame.f_code_co_name
    else "Global frame"
  let (vs, s1) :=
    if frame.f_code_co_name = "<module>" then
      captureGlobals execution_steps s frame.f_globals
    else
      captureLocals execution_steps s frame.f_locals
  (⟨⟨name, vs⟩, s1.heap, captured_output, frame.f_lineno⟩, s1)

/-- One invocation of the `trace_execution` callback on a frame event,
returning the updated `(visualizer, execution_steps)` pair. -/
def trace_execution (vis : VisualizerState) (execution_steps : List Step)
    (frame : PyFrame) (event : String) (captured_output : String) :
    VisualizerState × List Step :=
  if frame.f_code_co_name = "custom_import" ∨
     frame.f_code_co_name = "__import__" ∨
     frame.f_locals.any (fun p => p.1 = "custom_import") ∨
     strStartsWith frame.f_globals_name "re" ∨
     strStartsWith frame.f_globals_name "collections" ∨
     strStartsWith frame.f_globals_name "importlib" then
    (vis, execution_steps)
  else if event = "line" ∧ frame.f_globals_name = "__main__" then
    if execution_steps.length > 0 ∧
       (execution_steps.getLast?.map Step.currentLine = some frame.f_lineno) ∧
       frame.f_code_co_name = "__main__" then
      (vis, execution_steps)
    else
      let (st, vis1) := vis.capture_frame execution_steps frame captured_output
      (vis1, execution_steps ++ [st])
  else (vis, execution_steps)

/-- Folding `trace_execution` over a whole stream of frame events. -/
def traceEvents (vis : VisualizerState) (execution_steps : List Step) :
    List (PyFrame × String × String) → VisualizerState × List Step
  | [] => (vis, execution_steps)
  | (frame, event, out) :: evs =>
    let (vis1, steps1) := trace_execution vis execution_steps frame event out
    traceEvents vis1 steps1 evs

-- ===================================================================
-- create_error_state and the run_with_trace post-processing
-- ===================================================================

/-- `create_error_state`: prints the full message (appending it plus a
newline to the output buffer) and appends the synthetic error snapshot to
`execution_steps`. -/
def create_error_state (error_type error_msg : String)
    (execution_steps : List Step) (captured_output : String) :
    List Step × String :=
  let full_message := error_type ++ ": " ++ error_msg
  (execution_steps ++ [⟨⟨"Global frame", []⟩, [], full_message, 1⟩],
   captured_output ++ full_message ++ "\n")

/-- The name deny-list of `filter_system_variables`. -/
def systemVariableNames : List String :=
  ["custom_import", "real_import", "unsupported_modules", "builtins", "json",
   "sys", "to_js", "visualizer", "execution_steps", "trace_execution",
   "run_with_trace", "create_error_state", "filter_system_variables"]

/-- `filter_system_variables`. -/
def filter_system_variables (vs : List (String × ValueDescriptor)) :
    List (String × ValueDescriptor) :=
  vs.filter fun nv => !strStartsWith nv.1 "__" && !systemVariableNames.contains nv.1

/-- The heap clean-up in `run_with_trace` (source lines 376-389): remove
dict-typed entries with a truthy `value` holding a `__name__` or
`__builtins__` key. -/
def filterStepHeap (h : List (String × HeapEntry)) : List (String × HeapEntry) :=
  h.filter fun ke =>
    match ke.2 with
    | .dict v =>
      !(!v.isEmpty && v.any fun kv => kv.1 == "__name__" || kv.1 == "__builtins__")
    | _ => true

/-- Both per-step filters of the post-processing loop. -/
def filter_step (st : Step) : Step :=
  { st with
    frame := { st.frame with vars := filter_system_variables st.frame.vars },
    heap := filterStepHeap st.heap }

/-- Python `str()` of a stored heap-entry `value` dict (string keys and
string values), as tested by the re-annotation pass guard. -/
def pyStrOfValueDict (v : List (String × String)) : String :=
  "\x7b" ++
  String.intercalate ", "
    (v.map fun kv =>
      sglQuote ++ kv.1 ++ sglQuote ++ ": " ++ sglQuote ++ kv.2 ++ sglQuote) ++
  "\x7d"

/-- The guard of the Counter re-annotation pass (source line 406):
`obj.get("type") == "Counter" or (obj.get("value") and "Counter" in
str(obj.get("value")))`.  List entries have no `value` key (`None` is
falsy); a function entry's `value` is its signature string (whose `str` is
itself); a dict entry's `value` is the stored dict, truthy iff non-empty. -/
def counter_annotation_condition : HeapEntry → Bool
  | .dict v => !v.isEmpty && jsIncludes (pyStrOfValueDict v) "Counter"
  | .counter _ _ _ => true
  | .func _ value => (value != "") && jsIncludes value "Counter"
  | .list _ _ => false

/-- The Counter re-annotation pass (source lines 403-407), guarded by
`counter_annotation_condition`.  When the guard holds for a non-Counter
entry the Python code adds an `annotation` key that no consumer reads (the
renderer only looks at the annotation of Counter-typed entries); the model
leaves those entries unchanged. -/
def annotate_counter : HeapEntry → HeapEntry
  | .counter v _ oid => .counter v "imported class Counter" oid
  | e => e

def annotate_step (st : Step) : Step :=
  { st with heap := st.heap.map fun kv => (kv.1, annotate_counter kv.2) }

/-- The singleton duplication at the end of `run_with_trace` (source lines
413-415): `if len(execution_steps) == 1: execution_steps.append(execution_steps[0])`. -/
def duplicate_singleton : List Step → List Step
  | [st] => [st, st]
  | l => l

/-- The post-processing tail of `run_with_trace` (source lines 369-415),
applied after `exec` has returned and any error snapshot has been appended:
per-step filtering, the empty-trace fallback (capturing `run_with_trace`'s
own frame, passed in here as `fallback`), Counter re-annotation, final-output
backfill, and singleton duplication. -/
def run_post (execution_steps : List Step) (fallback : Step)
    (final_output : String) : List Step :=
  let s1 := execution_steps.map filter_step
  let s2 :=
    if s1.length = 0 then
      [{ fallback with
         frame := { fallback.frame with
                    vars := filter_system_variables fallback.frame.vars } }]
    else s1
  let s3 := s2.map annotate_step
  let s4 := s3.map fun st => { st with output := final_output }
  duplicate_singleton s4

-- ===================================================================
-- PythonService.processExecutionSteps (JavaScript side)
-- ===================================================================

/-- Truthiness of a property access `variables.k` in JavaScript: the
descriptor objects are truthy whenever the key is present. -/
def jsHasKey (vs : List (String × ValueDescriptor)) (k : String) : Bool :=
  vs.any fun p => p.1 == k

/-- The relevance predicate of `processExecutionSteps` (source lines
616-625); `step.frame` and `step.frame.variables` are always present in the
model.  `formatListElements` (applied afterwards) maps string primitives
through `String(...)` and leaves them unchanged, so it is omitted. -/
def relevantStep (st : Step) : Bool :=
  !jsHasKey st.frame.vars "_pyodide_core" &&
  !jsHasKey st.frame.vars "OutputCapturer" &&
  !jsHasKey st.frame.vars "capturer" &&
  !jsHasKey st.frame.vars "trace_execution" &&
  !jsHasKey st.frame.vars "run_with_trace" &&
  st.frame.name != "write"

/-- The step filter of `PythonService.processExecutionSteps`. -/
def processExecutionSteps (steps : List Step) : List Step :=
  steps.filter relevantStep

-- ===================================================================
-- usePythonStore (JavaScript side)
-- ===================================================================

/-- The `usePythonStore` zustand state. -/
structure PythonStore where
  isInitialized : Bool
  isRunning : Bool
  error : Option String
  executionSteps : List Step
  currentStepIndex : Int
  executionState : Step
deriving DecidableEq, Repr

/-- JavaScript `x || ''` on an optional string property access
(`lastStep?.output || ''`): the empty string is falsy. -/
def jsOrEmpty : Option String → String
  | some s => if s = "" then "" else s
  | _ => ""

/-- `setCurrentStepIndex` (source lines 60-73): a no-op when the index is
outside `[0, executionSteps.length)`; otherwise it selects the indexed step
and spreads it into `executionState` with `output` taken from the last step.
JavaScript `steps[steps.length - 1]` on a nonempty array is the last element,
modelled by `getLast?`. -/
def setCurrentStepIndex (index : Int) (prev : PythonStore) : PythonStore :=
  if h : 0 ≤ index ∧ index < prev.executionSteps.length then
    let currentStep := prev.executionSteps.get ⟨index.toNat, by omega⟩
    { prev with
      currentStepIndex := index,
      executionState :=
        { currentStep with
          output := jsOrEmpty (prev.executionSteps.getLast?.map Step.output) } }
  else prev

-- ===================================================================
-- PythonTutorViz renderer: depth-limited drawing (C7)
-- ===================================================================

/-- One visual element emitted while drawing a list and the objects reachable
from it.  Each event is tagged with the nesting level at which it is drawn
(the `level` parameter of `drawList`/`renderReferenceElement`; for an object
drawn from a reference at level L the tag is L+1).  Pixel coordinates are
omitted: the claims concern the recursion depth, not the geometry. -/
inductive DrawEv where
  | listLabel (level : Nat)
  | cellPrim (value : String) (level : Nat)
  | refIndicator (indicator : String) (level : Nat)
  | dictBox (level : Nat)
  | connector (level : Nat)
deriving DecidableEq, Repr

/-- The nesting level an event was drawn at. -/
def DrawEv.level : DrawEv → Nat
  | .listLabel l => l
  | .cellPrim _ l => l
  | .refIndicator _ l => l
  | .dictBox l => l
  | .connector l => l

mutual

/-- `drawList` (source lines 208-254): the list label and then each cell via
`renderListElement`. -/
def drawList (heap : List (String × HeapEntry))
    (elements : List ValueDescriptor) (level : Nat) : List DrawEv :=
  .listLabel level :: drawCells heap elements level
  termination_by (3 - level, elements.length, 3)

/-- The `elements.forEach` loop body of `drawList`. -/
def drawCells (heap : List (String × HeapEntry)) :
    List ValueDescriptor → Nat → List DrawEv
  | [], _ => []
  | e :: es, level =>
    renderListElement heap e level ++ drawCells heap es level
  termination_by es level => (3 - level, es.length, 2)

/-- `renderListElement`: a primitive cell value (strings are shown quoted)
or, for a reference whose id resolves in the heap, the reference rendering. -/
def renderListElement (heap : List (String × HeapEntry))
    (e : ValueDescriptor) (level : Nat) : List DrawEv :=
  match e with
  | .primitive v => [.cellPrim ("\"" ++ v ++ "\"") level]
  | .reference i =>
    match heapGet heap i with
    | some obj => renderReferenceElement heap obj level
    | _ => []
  termination_by (3 - level, 0, 1)

/-- `renderReferenceElement` (source lines 307-370): the indicator box, and —
only when `level < 3` — the referenced list (recursively, at `level + 1`) or
dict, followed by its connector.  Function and Counter references get the
indicator only. -/
def renderReferenceElement (heap : List (String × HeapEntry))
    (obj : HeapEntry) (level : Nat) : List DrawEv :=
  let indicator :=
    match obj with
    | .list _ _ => "[]"
    | .dict _ => "\x7b\x7d"
    | .func _ _ => "fn"
    | _ => "?"
  .refIndicator indicator level ::
  (if _h : level < 3 then
    match obj with
    | .list _ elems => drawList heap elems (level + 1) ++ [.connector level]
    | .dict _ => [.dictBox (level + 1), .connector level]
    | _ => []
  else [])
  termination_by (3 - level, 0, 0)

end

-- ===================================================================
-- PythonTutorViz renderer: import-error detection and the effect (C10)
-- ===================================================================

/-- A frame as handed to `drawCallStack` (the `frames` shape checked by
`detectImportError`; such frames may carry their own `output`). -/
structure VizFrame where
  name : String
  vars : List (String × ValueDescriptor)
  output : Option String
  is_highlighted : Bool
deriving DecidableEq, Repr

/-- The `executionState` shape read by the `PythonTutorViz` component:
`output`, an optional `frames` array and an optional legacy single `frame`. -/
structure RenderInput where
  output : String
  frames : Option (List VizFrame)
  frame : Option Frame
deriving DecidableEq, Repr

/-- The error test applied to one frame `output` inside `detectImportError`. -/
def vizOutputHasImportError : Option String → Bool
  | some o =>
    (o != "") &&
    (jsIncludes o "not found or not supported" || jsIncludes o "ImportError")
  | _ => false

/-- `detectImportError` (source lines 1073-1099): true when the state output
contains one of the two error substrings, else inspect `frames` (variables
with an `error_type` key or an erroring frame output), else the legacy
single frame for an `error_type` variable. -/
def detectImportError (executionState : RenderInput) : Bool :=
  if (executionState.output != "") &&
     (jsIncludes executionState.output "not found or not supported" ||
      jsIncludes executionState.output "ImportError") then
    true
  else
    match executionState.frames with
    | some fs =>
      fs.any fun f =>
        jsHasKey f.vars "error_type" || vizOutputHasImportError f.output
    | _ =>
      match executionState.frame with
      | some f => f.vars.any fun p => p.1 == "error_type"
      | _ => false

/-- The store error message set by the rendering effect on an import error. -/
def importErrorStoreMessage : String :=
  "This code contains imports that aren" ++ sglQuote ++
  "t supported in the browser environment. Try modifying the code to use built-in modules only."

/-- What the rendering effect put on screen: either only the import-error
panel, or the scene drawn by `drawCallStack` for the given frames (and,
transitively, the heap objects they reference). -/
inductive RenderedViz where
  | importErrorPanel
  | scene (frames : List VizFrame)
deriving DecidableEq, Repr

/-- The store `executionState` (always in the legacy single-frame shape) as
seen by the component. -/
def stateRenderInput (es : Step) : RenderInput :=
  ⟨es.output, Option.none, some es.frame⟩

/-- The body of the `useEffect` in `PythonTutorViz` (source lines 1006-1066):
on a detected import error it sets the store error, clears the execution
steps and renders only the import-error panel; otherwise it draws the call
stack (the store state has the legacy single-frame shape, so the
`executionState.frames` branch of the effect is not taken; `name ||
'Global frame'` substitutes the sentinel for a falsy name). -/
def renderEffect (store : PythonStore) : PythonStore × RenderedViz :=
  if detectImportError (stateRenderInput store.executionState) then
    ({ store with error := some importErrorStoreMessage, executionSteps := [] },
     .importErrorPanel)
  else
    (store,
     .scene [⟨(if store.executionState.frame.name = "" then "Global frame"
               else store.executionState.frame.name),
             store.executionState.frame.vars, Option.none, true⟩])

-- ===================================================================
-- Helper lemmas
-- ===================================================================

theorem mem_duplicate_singleton {st : Step} {l : List Step}
    (h : st ∈ duplicate_singleton l) : st ∈ l := by
  match l with
  | [] => exact h
  | [a] =>
    simp [duplicate_singleton] at h
    simp [h]
  | a :: b :: t => exact h

theorem duplicate_singleton_length {l : List Step} (h : l ≠ []) :
    2 ≤ (duplicate_singleton l).length := by
  match l with
  | [] => exact absurd rfl h
  | [a] => simp [duplicate_singleton]
  | a :: b :: t => simp [duplicate_singleton]

theorem duplicate_singleton_of_two (a b : Step) (t : List Step) :
    duplicate_singleton (a :: b :: t) = a :: b :: t := rfl

-- Demo fixtures shared by the concrete evaluations below.

/-- A top-level line event of a user program whose global namespace holds
`x = 1`. -/
def demoModuleFrame : PyFrame := ⟨"<module>", 1, "__main__", [("x", .int 1)], []⟩

/-- A line event inside `OutputCapturer.write` (its body lives in the pyodide
main module, whose `__name__` is `__main__`), as produced when user code
prints. -/
def demoWriteFrame : PyFrame :=
  ⟨"write", 283, "__main__", [],
   [("self", .pyObj "<OutputCapturer>"), ("text", .str "1\n")]⟩

/-- A stand-in for `visualizer.capture_frame(sys._getframe())` inside
`run_with_trace` (only used when zero snapshots were captured). -/
def demoFallback : Step := ⟨⟨"run_with_trace", []⟩, [], "", 1⟩

-- ===================================================================
-- C2 — import rejection
-- ===================================================================

/-- C2, counterexample: the claim says every module name outside the
enumerated standard-library allow-list raises a descriptive import failure,
but the hook is a deny-list: `import os` — a module outside the allow-list —
is delegated to the real importer and raises nothing. -/
theorem c2_counterexample :
    custom_import "os" = .ok () ∧ "os" ∉ allow_listed_modules :=
  ⟨rfl, by decide⟩

/-- C2, amended: only the ten enumerated unsupported module names
(case-insensitively) are rejected by `custom_import`; every other name is
delegated to the real importer.  `import numpy` does fail with the
descriptive message, the program state after the import never runs (the run
result does not depend on the statements after the failing import), and every
run containing `import numpy` ends in an error. -/
theorem c2_amended_deny_list_rejection :
    (∀ name, pyLower name ∉ unsupported_modules → custom_import name = .ok ()) ∧
    custom_import "numpy" = .error (moduleRejectionMessage "numpy") ∧
    (∀ pre post out,
      execStmts (pre ++ Stmt.importStmt "numpy" :: post) out =
        execStmts (pre ++ [Stmt.importStmt "numpy"]) out) ∧
    (∀ pre post out,
      (execStmts (pre ++ Stmt.importStmt "numpy" :: post) out).2.isSome = true) := by
  refine ⟨fun name h => ?_, rfl, fun pre => ?_, fun pre => ?_⟩
  · unfold custom_import
    rw [if_neg h]
  · induction pre with
    | nil => intro post out; rfl
    | cons a pre ih =>
      intro post out
      cases a with
      | print s => simpa [execStmts] using ih post (out ++ s ++ "\n")
      | other => simpa [execStmts] using ih post out
      | importStmt m =>
        simp only [List.cons_append, execStmts]
        cases custom_import m with
        | ok u => exact ih post out
        | error msg => rfl
  · induction pre with
    | nil => intro post out; rfl
    | cons a pre ih =>
      intro post out
      cases a with
      | print s => simpa [execStmts] using ih post (out ++ s ++ "\n")
      | other => simpa [execStmts] using ih post out
      | importStmt m =>
        simp only [List.cons_append, execStmts]
        cases custom_import m with
        | ok u => exact ih post out
        | error msg => rfl

/-- Witness for `c2_amended_deny_list_rejection` at concrete inputs:
`math` is delegated, and `print("before"); import numpy; print("after")`
errors with an output independent of the trailing print. -/
theorem c2_amended_deny_list_rejection_witness :
    custom_import "math" = .ok () ∧
    execStmts [Stmt.print "before", Stmt.importStmt "numpy", Stmt.print "after"] "" =
      execStmts [Stmt.print "before", Stmt.importStmt "numpy"] "" ∧
    (execStmts [Stmt.print "before", Stmt.importStmt "numpy", Stmt.print "after"] "").2.isSome
      = true :=
  ⟨c2_amended_deny_list_rejection.1 "math" (by decide),
   c2_amended_deny_list_rejection.2.2.1 [Stmt.print "before"] [Stmt.print "after"] "",
   c2_amended_deny_list_rejection.2.2.2 [Stmt.print "before"] [Stmt.print "after"] ""⟩

-- ===================================================================
-- C3 — at-least-two-snapshots invariant
-- ===================================================================

/-- C3, amended: the list returned by the Python-side `run_with_trace`
post-processing always contains at least two snapshots (an empty capture is
replaced by the fallback snapshot and a singleton is duplicated).  The
JavaScript-side relevance filter runs afterwards and can drop below two —
see the counterexample. -/
theorem c3_amended_python_side_at_least_two (steps : List Step)
    (fallback : Step) (final_output : String) :
    2 ≤ (run_post steps fallback final_output).length := by
  unfold run_post
  apply duplicate_singleton_length
  by_cases h : (steps.map filter_step).length = 0
  · simp [h]
  · simp only [if_neg h]
    simp only [ne_eq, List.map_eq_nil_iff]
    intro hnil
    rw [hnil] at h
    simp at h

/-- C3, counterexample to the claim as stated over the full post-processing
(which, per the spec, includes dropping the output-capture `write` frames):
a run of `print(1)` captures the top-level line event and a `write` frame
event; `run_with_trace` returns two snapshots, but `processExecutionSteps`
then drops the `write` snapshot, leaving a single processed snapshot. -/
theorem c3_counterexample :
    (processExecutionSteps
      (run_post
        (traceEvents VisualizerState.init []
          [(demoModuleFrame, "line", ""), (demoWriteFrame, "line", "1\n")]).2
        demoFallback "1\n")).length = 1 := by decide

-- ===================================================================
-- C4 — final-output backfill
-- ===================================================================

/-- C4: every snapshot of the post-processed trace — both as returned by the
Python side and after the JavaScript relevance filter — carries the final
cumulative output of the run, so all snapshots have identical `output`. -/
theorem c4_output_backfill (steps : List Step) (fallback : Step)
    (final_output : String) :
    (∀ st ∈ run_post steps fallback final_output, st.output = final_output) ∧
    (∀ st ∈ processExecutionSteps (run_post steps fallback final_output),
      st.output = final_output) := by
  have main : ∀ st ∈ run_post steps fallback final_output,
      st.output = final_output := by
    intro st hst
    unfold run_post at hst
    have hst' := mem_duplicate_singleton hst
    rcases List.mem_map.mp hst' with ⟨t, _, rfl⟩
    rfl
  exact ⟨main, fun st hst =>
    main st (List.mem_filter.mp (by simpa [processExecutionSteps] using hst)).1⟩

/-- Witness for `c4_output_backfill`: the backfilled snapshot of a concrete
one-step run carries the final output. -/
theorem c4_output_backfill_witness :
    (⟨⟨"Global frame", [("x", .primitive "1")]⟩, [], "1\n", 1⟩ : Step).output
      = "1\n" :=
  (c4_output_backfill [⟨⟨"Global frame", [("x", .primitive "1")]⟩, [], "", 1⟩]
      demoFallback "1\n").1 _ (by decide)

-- ===================================================================
-- C5 — same-line suppression (code bug)
-- ===================================================================

/-- The failing input for C5: the same top-level frame (co_name `<module>`,
module name `__main__`) delivers two consecutive `line` events for line 3 —
e.g. a loop header line executing twice. -/
def c5Frame : PyFrame := ⟨"<module>", 3, "__main__", [("x", .int 1)], []⟩

/-- C5: the suppression branch of `trace_execution` compares
`frame.f_code.co_name` against `'__main__'`, but a top-level frame has
co_name `<module>` (the very test `capture_frame` uses), so the second
same-line event from the same top-level frame is captured rather than
suppressed: two consecutive top-level snapshots share line 3. -/
theorem c5_same_line_not_suppressed :
    ((traceEvents VisualizerState.init []
        [(c5Frame, "line", ""), (c5Frame, "line", "")]).2.map
      (fun st => (st.frame.name, st.currentLine))) =
    [("Global frame", 3), ("Global frame", 3)] := by decide

theorem duplicate_singleton_of_length_ne_one {l : List Step}
    (h : l.length ≠ 1) : duplicate_singleton l = l := by
  match l with
  | [] => rfl
  | [a] => simp at h
  | a :: b :: t => rfl

-- ===================================================================
-- C6 — synthetic error snapshot
-- ===================================================================

/-- C6, counterexample: with a snapshot already captured before the exception
(line 1 of `x = 1` followed by a raising import), the error snapshot does not
replace normal capture — the raw trace has two snapshots and its first one
still carries the user variable. -/
theorem c6_counterexample :
    (create_error_state "Error" (moduleRejectionMessage "numpy")
        (traceEvents VisualizerState.init [] [(demoModuleFrame, "line", "")]).2
        "").1.length = 2 ∧
    ((create_error_state "Error" (moduleRejectionMessage "numpy")
        (traceEvents VisualizerState.init [] [(demoModuleFrame, "line", "")]).2
        "").1[0]?.map fun st => st.frame.vars) =
      some [("x", ValueDescriptor.primitive "1")] := by decide

/-- C6, amended: on an escaping exception, `create_error_state` appends (not
substitutes) one synthetic error snapshot — frame name "Global frame", no
variables, empty heap, output `"<kind>: <msg>"`, line 1 — after the
snapshots already captured, and prints the message.  After post-processing
the run still completes: the error snapshot is the last processed snapshot
(with its `output` backfilled to the final output), and every snapshot
captured before the exception survives at its index, transformed only by the
standard per-step filtering, re-annotation and backfill. -/
theorem c6_amended_error_snapshot_appended
    (captured : List Step) (out kind msg : String) (fallback : Step) :
    (create_error_state kind msg captured out).1 =
      captured ++ [⟨⟨"Global frame", []⟩, [], kind ++ ": " ++ msg, 1⟩] ∧
    (create_error_state kind msg captured out).2 =
      out ++ (kind ++ ": " ++ msg) ++ "\n" ∧
    ∀ final_output,
      (run_post (create_error_state kind msg captured out).1 fallback
          final_output).getLast? =
        some ⟨⟨"Global frame", []⟩, [], final_output, 1⟩ ∧
      ∀ i (hi : i < captured.length),
        (run_post (create_error_state kind msg captured out).1 fallback
            final_output)[i]? =
          some { annotate_step (filter_step (captured.get ⟨i, hi⟩)) with
                 output := final_output } := by
  refine ⟨rfl, rfl, fun final_output => ?_⟩
  have hrp :
      run_post (create_error_state kind msg captured out).1 fallback final_output =
      duplicate_singleton
        ((captured.map fun st =>
            { annotate_step (filter_step st) with output := final_output }) ++
          [⟨⟨"Global frame", []⟩, [], final_output, 1⟩]) := by
    simp only [run_post, create_error_state]
    rw [if_neg (by simp)]
    congr 1
    simp [List.map_append, List.map_map, Function.comp, filter_step,
      filter_system_variables, filterStepHeap, annotate_step]
  rw [hrp]
  cases captured with
  | nil =>
    refine ⟨by simp [duplicate_singleton], fun i hi => ?_⟩
    simp at hi
  | cons c cs =>
    rw [duplicate_singleton_of_length_ne_one (by simp)]
    refine ⟨List.getLast?_concat _, fun i hi => ?_⟩
    rw [List.getElem?_append]
    rw [if_pos (by simpa using hi)]
    rw [List.getElem?_map]
    rw [List.getElem?_eq_getElem (by simpa using hi)]
    rfl

/-- Witness for `c6_amended_error_snapshot_appended` on a concrete run:
`x = 1` then a raising import. -/
theorem c6_amended_error_snapshot_appended_witness :
    (run_post
        (create_error_state "Error" "boom"
          [⟨⟨"Global frame", [("x", .primitive "1")]⟩, [], "", 1⟩] "").1
        demoFallback "Error: boom\n").getLast? =
      some ⟨⟨"Global frame", []⟩, [], "Error: boom\n", 1⟩ ∧
    (run_post
        (create_error_state "Error" "boom"
          [⟨⟨"Global frame", [("x", .primitive "1")]⟩, [], "", 1⟩] "").1
        demoFallback "Error: boom\n")[0]? =
      some ⟨⟨"Global frame", [("x", .primitive "1")]⟩, [], "Error: boom\n", 1⟩ :=
  ⟨((c6_amended_error_snapshot_appended
      [⟨⟨"Global frame", [("x", .primitive "1")]⟩, [], "", 1⟩] "" "Error" "boom"
      demoFallback).2.2 "Error: boom\n").1,
   ((c6_amended_error_snapshot_appended
      [⟨⟨"Global frame", [("x", .primitive "1")]⟩, [], "", 1⟩] "" "Error" "boom"
      demoFallback).2.2 "Error: boom\n").2 0 (by decide)⟩

-- ===================================================================
-- C9 — store navigation
-- ===================================================================

/-- C9: `setCurrentStepIndex` is a no-op for an index outside
`[0, len(steps))`; in range it sets the current index and swaps the indexed
step's frame, heap and line into the displayed execution state while the
displayed output is the last step's (final) output. -/
theorem c9_goto_index (prev : PythonStore) (index : Int) :
    (¬ (0 ≤ index ∧ index < prev.executionSteps.length) →
      setCurrentStepIndex index prev = prev) ∧
    ∀ h : 0 ≤ index ∧ index < prev.executionSteps.length,
      (setCurrentStepIndex index prev).currentStepIndex = index ∧
      (setCurrentStepIndex index prev).executionState.frame =
        (prev.executionSteps.get ⟨index.toNat, by omega⟩).frame ∧
      (setCurrentStepIndex index prev).executionState.heap =
        (prev.executionSteps.get ⟨index.toNat, by omega⟩).heap ∧
      (setCurrentStepIndex index prev).executionState.currentLine =
        (prev.executionSteps.get ⟨index.toNat, by omega⟩).currentLine ∧
      prev.executionSteps.getLast?.map Step.output =
        some (setCurrentStepIndex index prev).executionState.output := by
  constructor
  · intro h
    unfold setCurrentStepIndex
    rw [dif_neg h]
  · intro h
    unfold setCurrentStepIndex
    rw [dif_pos h]
    have hne : prev.executionSteps ≠ [] := by
      intro hnil
      rw [hnil] at h
      simp at h
      omega
    obtain ⟨last, hlast⟩ : ∃ last, prev.executionSteps.getLast? = some last := by
      cases hg : prev.executionSteps.getLast? with
      | none => exact absurd (List.getLast?_eq_none_iff.mp hg) hne
      | some l => exact ⟨l, rfl⟩
    refine ⟨rfl, rfl, rfl, rfl, ?_⟩
    rw [hlast]
    by_cases ho : last.output = "" <;> simp [jsOrEmpty, ho]

/-- Witness for `c9_goto_index` on a concrete two-step store: jumping to
step 0 shows step 0's frame with the final output of step 1, and jumping to
the out-of-range index 5 changes nothing. -/
theorem c9_goto_index_witness :
    (setCurrentStepIndex 0
        ⟨true, false, Option.none,
         [⟨⟨"Global frame", []⟩, [], "partial", 1⟩,
          ⟨⟨"Global frame", [("y", .primitive "6")]⟩, [], "6\n", 2⟩],
         0, demoFallback⟩).executionState.output = "6\n" ∧
    setCurrentStepIndex 5
        ⟨true, false, Option.none,
         [⟨⟨"Global frame", []⟩, [], "partial", 1⟩,
          ⟨⟨"Global frame", [("y", .primitive "6")]⟩, [], "6\n", 2⟩],
         0, demoFallback⟩ =
      ⟨true, false, Option.none,
       [⟨⟨"Global frame", []⟩, [], "partial", 1⟩,
        ⟨⟨"Global frame", [("y", .primitive "6")]⟩, [], "6\n", 2⟩],
       0, demoFallback⟩ := by
  constructor
  · have := ((c9_goto_index
      ⟨true, false, Option.none,
       [⟨⟨"Global frame", []⟩, [], "partial", 1⟩,
        ⟨⟨"Global frame", [("y", .primitive "6")]⟩, [], "6\n", 2⟩],
       0, demoFallback⟩ 0).2 (by decide)).2.2.2.2
    simpa using this.symm
  · exact (c9_goto_index _ 5).1 (by decide)

-- ===================================================================
-- C10 — renderer import-error short circuit
-- ===================================================================

theorem jsIncludes_ne_empty {s pat : String} (hpat : pat.data ≠ [])
    (h : jsIncludes s pat = true) : (s != "") = true := by
  cases hs : s.data with
  | nil =>
    exfalso
    unfold jsIncludes at h
    rw [hs] at h
    unfold listContainsSeq at h
    simp [List.isEmpty_iff, hpat] at h
  | cons c cs =>
    simp only [bne_iff_ne, ne_eq]
    intro heq
    rw [heq] at hs
    simp at hs

/-- C10: whenever the current execution state's output contains
"not found or not supported" or "ImportError" — however it got there,
including user code printing such text — the rendering effect clears the
stored execution steps, sets the store error, and renders only the
import-error panel (no frames or heap objects are drawn). -/
theorem c10_import_error_short_circuit (store : PythonStore)
    (h : jsIncludes store.executionState.output "not found or not supported" = true ∨
         jsIncludes store.executionState.output "ImportError" = true) :
    renderEffect store =
      ({ store with error := some importErrorStoreMessage, executionSteps := [] },
       .importErrorPanel) := by
  have hne : (store.executionState.output != "") = true := by
    rcases h with h | h
    · exact jsIncludes_ne_empty (by decide) h
    · exact jsIncludes_ne_empty (by decide) h
  have hdet : detectImportError (stateRenderInput store.executionState) = true := by
    unfold detectImportError stateRenderInput
    rcases h with h | h <;> simp [h, hne]
  unfold renderEffect
  simp [hdet]

/-- Witness for `c10_import_error_short_circuit`: a store whose current step
merely printed the text "ImportError" (the run itself succeeded) still
renders only the error panel with cleared steps. -/
theorem c10_import_error_short_circuit_witness :
    renderEffect
      ⟨true, false, Option.none,
       [⟨⟨"Global frame", []⟩, [], "ImportError\n", 1⟩], 0,
       ⟨⟨"Global frame", []⟩, [], "ImportError\n", 1⟩⟩ =
    ({ isInitialized := true, isRunning := false,
       error := some importErrorStoreMessage, executionSteps := [],
       currentStepIndex := 0,
       executionState := ⟨⟨"Global frame", []⟩, [], "ImportError\n", 1⟩ },
     .importErrorPanel) :=
  c10_import_error_short_circuit
    ⟨true, false, Option.none,
     [⟨⟨"Global frame", []⟩, [], "ImportError\n", 1⟩], 0,
     ⟨⟨"Global frame", []⟩, [], "ImportError\n", 1⟩⟩
    (Or.inr (by decide))

-- ===================================================================
-- Heap-id freshness machinery (C1, C8)
-- ===================================================================

mutual

theorem process_value_next_mono (es : List Step) (s : VisualizerState) :
    (v : PyVal) →
      s.next_heap_id ≤ (VisualizerState.process_value es s v).2.next_heap_id
  | .int _ => le_refl _
  | .bool _ => le_refl _
  | .none => le_refl _
  | .str _ => le_refl _
  | .module _ => le_refl _
  | .iterator => le_refl _
  | .pattern _ => le_refl _
  | .pyObj _ => le_refl _
  | .dict _ _ => Nat.le_succ _
  | .counter _ _ => Nat.le_succ _
  | .func _ _ _ => Nat.le_succ _
  | .tuple _ elems =>
    le_trans (Nat.le_succ _)
      (process_values_next_mono es { s with next_heap_id := s.next_heap_id + 1 } elems)
  | .list _ elems =>
    le_trans (Nat.le_succ _)
      (process_values_next_mono es { s with next_heap_id := s.next_heap_id + 1 } elems)

theorem process_values_next_mono (es : List Step) (s : VisualizerState) :
    (vs : List PyVal) →
      s.next_heap_id ≤ (VisualizerState.process_values es s vs).2.next_heap_id
  | [] => le_refl _
  | v :: vs =>
    le_trans (process_value_next_mono es s v)
      (process_values_next_mono es (VisualizerState.process_value es s v).2 vs)

end

theorem heapIdString_inj {m n : Nat}
    (h : "id" ++ Nat.repr m = "id" ++ Nat.repr n) : m = n := by
  have hd : "id".data ++ (Nat.repr m).data = "id".data ++ (Nat.repr n).data :=
    congrArg String.data h
  have hdd := List.append_cancel_left hd
  calc m = decimalParse 0 (Nat.repr m).data := (decimalParse_repr m).symm
    _ = decimalParse 0 (Nat.repr n).data := by rw [hdd]
    _ = n := decimalParse_repr n

theorem process_value_list_fst (es : List Step) (s : VisualizerState)
    (o : Nat) (elems : List PyVal) :
    (VisualizerState.process_value es s (.list o elems)).1 =
      .reference ("id" ++ Nat.repr s.next_heap_id) := rfl

theorem process_value_list_next (es : List Step) (s : VisualizerState)
    (o : Nat) (elems : List PyVal) :
    s.next_heap_id + 1 ≤
      (VisualizerState.process_value es s (.list o elems)).2.next_heap_id :=
  process_values_next_mono es { s with next_heap_id := s.next_heap_id + 1 } elems

theorem find?_map_replace (t : List (String × HeapEntry)) (k : String)
    (e : HeapEntry) (hany : t.any (fun p => p.1 = k) = true) :
    (t.map fun p => if p.1 = k then (k, e) else p).find?
      (fun p => decide (p.1 = k)) = some (k, e) := by
  induction t with
  | nil => simp at hany
  | cons p t ih =>
    by_cases hp : p.1 = k
    · simp [List.find?_cons, hp]
    · have hany' : t.any (fun p => p.1 = k) = true := by
        simpa [List.any_cons, hp] using hany
      simpa [List.find?_cons, hp] using ih hany'

theorem heapGet_heapSet_self (h : List (String × HeapEntry)) (k : String)
    (e : HeapEntry) : heapGet (heapSet h k e) k = some e := by
  unfold heapGet heapSet
  by_cases hany : h.any (fun p => p.1 = k) = true
  · rw [if_pos hany, find?_map_replace h k e hany]
    rfl
  · rw [if_neg hany, List.find?_append]
    have hnone : h.find? (fun p => decide (p.1 = k)) = none := by
      rw [List.find?_eq_none]
      intro p hp hpk
      exact hany (List.any_eq_true.mpr ⟨p, hp, hpk⟩)
    rw [hnone]
    simp [List.find?_cons]

theorem find?_map_replace_ne (t : List (String × HeapEntry)) (k k' : String)
    (e : HeapEntry) (hne : k' ≠ k) :
    (t.map fun p => if p.1 = k then (k, e) else p).find?
        (fun p => decide (p.1 = k')) =
      t.find? (fun p => decide (p.1 = k')) := by
  induction t with
  | nil => rfl
  | cons p t ih =>
    by_cases hp : p.1 = k
    · have h1 : ¬ ((k : String) = k') := fun hx => hne hx.symm
      have h2 : ¬ (p.1 = k') := fun hx => hne (hx ▸ hp)
      simp [List.find?_cons, hp, h1, h2, ih]
    · by_cases hp' : p.1 = k'
      · simp [List.find?_cons, hp, hp', hne]
      · simp [List.find?_cons, hp, hp', ih]

theorem heapGet_heapSet_ne (h : List (String × HeapEntry)) (k k' : String)
    (e : HeapEntry) (hne : k' ≠ k) :
    heapGet (heapSet h k e) k' = heapGet h k' := by
  unfold heapGet heapSet
  by_cases hany : h.any (fun p => p.1 = k) = true
  · rw [if_pos hany, find?_map_replace_ne h k k' e hne]
  · rw [if_neg hany, List.find?_append]
    have hsingle : [((k : String), e)].find? (fun p => decide (p.1 = k')) = none := by
      have h1 : ¬ ((k : String) = k') := fun hx => hne hx.symm
      simp [List.find?_cons, h1]
    rw [hsingle]
    simp

theorem counterLabel_ne_empty (es : List Step) (s : VisualizerState)
    (oid : Nat) : counterLabel es s oid ≠ "" := by
  unfold counterLabel
  cases VisualizerState._get_variable_name s es oid with
  | some n =>
    intro heq
    have h2 : "Counter for ".data ++ n.data = "".data := congrArg String.data heq
    rcases List.append_eq_nil.mp h2 with ⟨ha, _⟩
    exact absurd ha (by decide)
  | none => decide

-- ===================================================================
-- C1 — list heap ids are always freshly allocated
-- ===================================================================

/-- The frame of `x = [1, 2]; y = x`: both globals hold the *same* live list
object (equal `objId` 7). -/
def c1Frame : PyFrame :=
  ⟨"<module>", 2, "__main__",
   [("x", .list 7 [.int 1, .int 2]), ("y", .list 7 [.int 1, .int 2])], []⟩

/-- C1, counterexample: capturing the frame of `x = [1, 2]; y = x` gives `x`
and `y` two *distinct* heap ids (`id1`, `id2`) although they are the same
live object — they do not share one heap entry — and re-capturing the same
frame in a second snapshot hands the same live list yet two further fresh
ids (`id3`, `id4`): heap ids are not identity-stable across snapshots. -/
theorem c1_counterexample :
    ((VisualizerState.init.capture_frame [] c1Frame "").1.frame.vars =
      [("x", .reference "id1"), ("y", .reference "id2")]) ∧
    "id1" ≠ "id2" ∧
    (((VisualizerState.init.capture_frame [] c1Frame "").2.capture_frame
        [(VisualizerState.init.capture_frame [] c1Frame "").1] c1Frame "").1.frame.vars =
      [("x", .reference "id3"), ("y", .reference "id4")]) := by decide

/-- C1, amended: `process_value` allocates a fresh heap id for *every* list
materialization — the two halves of the original claim cannot both hold.
Two separate structurally equal instances indeed get two distinct heap ids,
but so does the very same live list object materialized twice (the ids here
are distinct for any two consecutively processed lists, equal or not, same
`objId` or not), so after `x = [1,2]; y = x` the variables reference two
distinct heap entries instead of one shared entry. -/
theorem c1_amended_list_ids_always_fresh (es : List Step)
    (s : VisualizerState) (o1 o2 : Nat) (l1 l2 : List PyVal) :
    ∃ i1 i2,
      (VisualizerState.process_value es s (.list o1 l1)).1 = .reference i1 ∧
      (VisualizerState.process_value es
          (VisualizerState.process_value es s (.list o1 l1)).2
          (.list o2 l2)).1 = .reference i2 ∧
      i1 ≠ i2 := by
  refine ⟨_, _, process_value_list_fst es s o1 l1,
    process_value_list_fst es _ o2 l2, ?_⟩
  intro heq
  have hmn := heapIdString_inj heq
  have h2 := process_value_list_next es s o1 l1
  omega

-- ===================================================================
-- C8 — the Counter special case is dead code (code bug)
-- ===================================================================

/-- C8, evaluated at the failing input: a live `collections.Counter` built
by `Counter([1,1,2])` (counts `\x7b1: 2, 2: 1\x7d`, object id 42).  Because
`Counter` subclasses `dict`, `process_value` materializes it through the
dict branch: the entry is stored under a fresh heap id but with type
`dict`, stringified counts, no annotation and no object id, and the
re-annotation pass guard does not fire on it either (its stringified value
does not contain "Counter").  The unreachable Counter branch would have
produced a type-`Counter` entry with a non-empty annotation — which is what
the claim, the comments inside that branch, and the renderer Counter
styling describe.  Fresh-id allocation does survive through the dict
branch: a second structurally identical Counter still receives a distinct
heap id. -/
theorem c8_counter_materialized_by_dict_branch :
    (VisualizerState.process_value [] VisualizerState.init
        (.counter 42 [(.int 1, .int 2), (.int 2, .int 1)])).1 =
      .reference "id1" ∧
    heapGet
        (VisualizerState.process_value [] VisualizerState.init
          (.counter 42 [(.int 1, .int 2), (.int 2, .int 1)])).2.heap "id1" =
      some (.dict [("1", "2"), ("2", "1")]) ∧
    annotate_counter (.dict [("1", "2"), ("2", "1")]) =
      .dict [("1", "2"), ("2", "1")] ∧
    counter_annotation_condition (.dict [("1", "2"), ("2", "1")]) = false ∧
    (VisualizerState.process_value []
        (VisualizerState.process_value [] VisualizerState.init
          (.counter 42 [(.int 1, .int 2), (.int 2, .int 1)])).2
        (.counter 43 [(.int 1, .int 2), (.int 2, .int 1)])).1 =
      .reference "id2" ∧
    ("id1" : String) ≠ "id2" ∧
    counter_branch_entry [] VisualizerState.init 42
        [(.int 1, .int 2), (.int 2, .int 1)] =
      .counter [("1", "2"), ("2", "1")] "Counter object" 42 ∧
    ∀ (es : List Step) (s : VisualizerState) (oid : Nat)
      (entries : List (PyVal × PyVal)),
      ∃ v a o, counter_branch_entry es s oid entries = .counter v a o ∧ a ≠ "" := by
  refine ⟨by decide, by decide, by decide, by decide, by decide, by decide,
    by decide, fun es s oid entries => ?_⟩
  exact ⟨_, _, _, rfl, counterLabel_ne_empty es s oid⟩

-- ===================================================================
-- C7 — depth-limited drawing
-- ===================================================================

mutual

theorem drawList_level_le (heap : List (String × HeapEntry))
    (elements : List ValueDescriptor) (level : Nat) (ev : DrawEv)
    (h : ev ∈ drawList heap elements level) : DrawEv.level ev ≤ max level 3 := by
  rw [drawList] at h
  rcases List.mem_cons.mp h with rfl | h2
  · exact le_max_left _ _
  · exact drawCells_level_le heap elements level ev h2
  termination_by (3 - level, elements.length, 3)

theorem drawCells_level_le (heap : List (String × HeapEntry))
    (es : List ValueDescriptor) (level : Nat) (ev : DrawEv)
    (h : ev ∈ drawCells heap es level) : DrawEv.level ev ≤ max level 3 := by
  match es with
  | [] =>
    simp only [drawCells] at h
    exact absurd h (List.not_mem_nil ev)
  | e :: es' =>
    simp only [drawCells] at h
    rcases List.mem_append.mp h with h1 | h2
    · exact renderListElement_level_le heap e level ev h1
    · exact drawCells_level_le heap es' level ev h2
  termination_by (3 - level, es.length, 2)

theorem renderListElement_level_le (heap : List (String × HeapEntry))
    (e : ValueDescriptor) (level : Nat) (ev : DrawEv)
    (h : ev ∈ renderListElement heap e level) : DrawEv.level ev ≤ max level 3 := by
  match e with
  | .primitive v =>
    simp only [renderListElement] at h
    rcases List.mem_singleton.mp h with rfl
    exact le_max_left _ _
  | .reference i =>
    simp only [renderListElement] at h
    cases hg : heapGet heap i with
    | some obj =>
      rw [hg] at h
      exact renderReferenceElement_level_le heap obj level ev h
    | none =>
      rw [hg] at h
      exact absurd h (List.not_mem_nil ev)
  termination_by (3 - level, 0, 1)

theorem renderReferenceElement_level_le (heap : List (String × HeapEntry))
    (obj : HeapEntry) (level : Nat) (ev : DrawEv)
    (h : ev ∈ renderReferenceElement heap obj level) :
    DrawEv.level ev ≤ max level 3 := by
  cases obj with
  | list ot elems =>
    rw [renderReferenceElement] at h
    rcases List.mem_cons.mp h with rfl | h2
    · exact le_max_left _ _
    · by_cases hl : level < 3
      · rw [dif_pos hl] at h2
        rcases List.mem_append.mp h2 with h3 | h4
        · have h5 := drawList_level_le heap elems (level + 1) ev h3
          omega
        · rcases List.mem_singleton.mp h4 with rfl
          exact le_max_left _ _
      · rw [dif_neg hl] at h2
        exact absurd h2 (List.not_mem_nil ev)
  | dict v =>
    rw [renderReferenceElement] at h
    rcases List.mem_cons.mp h with rfl | h2
    · exact le_max_left _ _
    · by_cases hl : level < 3
      · rw [dif_pos hl] at h2
        rcases List.mem_cons.mp h2 with rfl | h4
        · simp only [DrawEv.level]
          omega
        · rcases List.mem_singleton.mp h4 with rfl
          exact le_max_left _ _
      · rw [dif_neg hl] at h2
        exact absurd h2 (List.not_mem_nil ev)
  | counter v a oid =>
    rw [renderReferenceElement] at h
    · rcases List.mem_cons.mp h with rfl | h2
      · exact le_max_left _ _
      · by_cases hl : level < 3
        · rw [dif_pos hl] at h2
          exact absurd h2 (List.not_mem_nil ev)
        · rw [dif_neg hl] at h2
          exact absurd h2 (List.not_mem_nil ev)
    · intro a b h'
      exact HeapEntry.noConfusion h'
    · intro a b h'
      exact HeapEntry.noConfusion h'
    · intro a h'
      exact HeapEntry.noConfusion h'
  | func n v =>
    rw [renderReferenceElement] at h
    rcases List.mem_cons.mp h with rfl | h2
    · exact le_max_left _ _
    · by_cases hl : level < 3
      · rw [dif_pos hl] at h2
        exact absurd h2 (List.not_mem_nil ev)
      · rw [dif_neg hl] at h2
        exact absurd h2 (List.not_mem_nil ev)
  termination_by (3 - level, 0, 0)

end


/-- C7: the drawing recursion over nested references is total (the functions
above are accepted as terminating for every heap, including self-referential
ones) and never exceeds nesting depth 3: every element drawn while rendering
a list at the top level carries a level tag of at most 3, and references
found at level 3 are not expanded (`renderReferenceElement` recurses only
when `level < 3`), so objects beyond the cap are simply not drawn. -/
theorem c7_layout_depth_bounded (heap : List (String × HeapEntry))
    (elements : List ValueDescriptor) (ev : DrawEv)
    (h : ev ∈ drawList heap elements 0) : DrawEv.level ev ≤ 3 := by
  simpa using drawList_level_le heap elements 0 ev h

/-- A heap whose single list contains itself (`lst = []; lst.append(lst)`). -/
def c7CycHeap : List (String × HeapEntry) :=
  [("id1", .list "list" [.reference "id1"])]

/-- Witness for `c7_layout_depth_bounded` on the self-referential heap: the
drawing terminates with the level-3 reference indicator among its elements,
and its level is within the cap. -/
theorem c7_layout_depth_bounded_witness :
    DrawEv.refIndicator "[]" 3 ∈ drawList c7CycHeap [.reference "id1"] 0 ∧
    DrawEv.level (DrawEv.refIndicator "[]" 3) ≤ 3 := by
  have hm : DrawEv.refIndicator "[]" 3 ∈ drawList c7CycHeap [.reference "id1"] 0 := by
    simp [drawList, drawCells, renderListElement, renderReferenceElement,
      heapGet, c7CycHeap, List.find?]
  exact ⟨hm, c7_layout_depth_bounded _ _ _ hm⟩
